import Mathlib

/-!
Verification of the SpiderWeb content-publishing pipeline.

Shallow embedding of the TypeScript services:
* `EmailInterp`   — `EmailInterpretationService` (classification, intent,
  target-frontend extraction).
* `ErrHandling`   — `ErrorHandlingService` (error log, thresholds, recovery
  strategies).
* `Publishing`    — `PublishingExecutionService` (request generation, success
  rule, recovery chain).
* `ConnMgr`       — `FrontendConnectionService` (validation, probe).
* `Controller`    — `FrameworkController.determineOverallStatus`.

External host behaviour (HTTP `fetch`, the JS `URL` parser, clocks and random
suffixes) is supplied by explicit oracle parameters; everything else is a
direct translation of the source.
-/

/-- JavaScript `String.prototype.toLowerCase` (ASCII case mapping, which is all
the keyword tables use). -/
def jsToLower (s : String) : String :=
  ⟨s.data.map Char.toLower⟩

/-- JavaScript `String.prototype.includes`: `needle` occurs contiguously in
`hay`. -/
def jsIncludes (hay needle : String) : Bool :=
  hay.data.tails.any (fun t => needle.data.isPrefixOf t)

/-- JavaScript `str.replace(/\/$/, '')`: strip a single trailing slash. -/
def stripTrailingSlash (s : String) : String :=
  if s.endsWith "/" then s.dropRight 1 else s

namespace EmailInterp

/-- `EmailData` from `framework/types`. -/
structure EmailData where
  subject : String
  body : String
  attachments : List String
  sender : String
  timestamp : String
  deriving Repr, DecidableEq

/-- The content-type union returned by `classifyContentType`. -/
inductive ContentType
  | article | product | update | announcement | other
  deriving Repr, DecidableEq

/-- The intent union returned by `determineIntent`. -/
inductive Intent
  | immediate | scheduled | draft
  deriving Repr, DecidableEq

/-- `EmailInterpretationService.classifyContentType`: ordered keyword scan over
the lowercased `subject ++ " " ++ body`. -/
def classifyContentType (email : EmailData) : ContentType :=
  let text := jsToLower (email.subject ++ " " ++ email.body)
  if jsIncludes text "blog" || jsIncludes text "article" || jsIncludes text "post" then
    .article
  else if jsIncludes text "product" || jsIncludes text "item" || jsIncludes text "listing" then
    .product
  else if jsIncludes text "update" || jsIncludes text "changes" || jsIncludes text "modified" then
    .update
  else if jsIncludes text "announcement" || jsIncludes text "news" || jsIncludes text "important" then
    .announcement
  else
    .other

/-- `EmailInterpretationService.determineIntent`: ordered keyword scan over the
lowercased body; defaults to `immediate`. -/
def determineIntent (body : String) : Intent :=
  let text := jsToLower body
  if jsIncludes text "publish now" || jsIncludes text "immediate" || jsIncludes text "asap" then
    .immediate
  else if jsIncludes text "schedule" || jsIncludes text "later" || jsIncludes text "specific time" then
    .scheduled
  else if jsIncludes text "draft" || jsIncludes text "save" || jsIncludes text "review first" then
    .draft
  else
    .immediate

/-- `EmailInterpretationService.extractTargetFrontends`: keyword table over the
lowercased body; falls back to the sentinel `all`. -/
def extractTargetFrontends (body : String) : List String :=
  let text := jsToLower body
  let frontends : List String :=
    (if jsIncludes text "main site" || jsIncludes text "website" || jsIncludes text "homepage" then
      ["main_site"] else []) ++
    (if jsIncludes text "developer portal" || jsIncludes text "dev portal" || jsIncludes text "api docs" then
      ["developer_portal"] else []) ++
    (if jsIncludes text "blog" || jsIncludes text "news site" then
      ["blog"] else []) ++
    (if jsIncludes text "admin panel" || jsIncludes text "dashboard" then
      ["admin_panel"] else [])
  if frontends.length > 0 then frontends else ["all"]

/-- The classification triple produced by `interpretEmail` before content and
media extraction. -/
def interpretTriple (email : EmailData) : ContentType × Intent × List String :=
  (classifyContentType email, determineIntent email.body, extractTargetFrontends email.body)

end EmailInterp

namespace ErrHandling

/-- The severity union of `SystemError` from `framework/types`. -/
inductive Severity
  | low | medium | high | critical
  deriving Repr, DecidableEq

/-- `SystemError` from `framework/types`. -/
structure SystemError where
  timestamp : String
  error : String
  severity : Severity
  component : String
  resolved : Bool
  deriving Repr, DecidableEq

/-- The action-type union of `FrameworkAction`. -/
inductive ActionType
  | connect | transform | publish | notify | error
  deriving Repr, DecidableEq

/-- The priority union of `FrameworkAction`. -/
inductive Priority
  | high | medium | low
  deriving Repr, DecidableEq

/-- The loosely-typed `context?: any` payload handed to `handleError`; the
registered recovery strategies only ever read these three optional fields. -/
structure Ctx where
  connection_name : Option String := none
  frontend_name : Option String := none
  content_type : Option String := none
  deriving Repr, DecidableEq

/-- The `parameters` object literals occurring in `error-handling.ts`, one
constructor per literal shape.  Fixed fields that the source writes verbatim
(`action: 'pause_system'`, `component: 'ErrorHandlingService'`,
`severity: 'critical'` on the pause action; `fallback_type: 'other'` is kept
as an argument) are documented at the construction sites. -/
inductive ActionParams
  | errorNotif (error : String) (component : String) (severity : Severity) (context : Option Ctx)
  | pauseSystem (error : String)
  | thresholdNotify (message : String) (error_count : Nat) (threshold : Option Nat)
      (recent_errors : List SystemError)
  | retryClassification (fallback_type : String) (context : Option Ctx)
  | retryWithoutAttachments (context : Option Ctx)
  | retryAltAuth (connection_name : Option String) (context : Option Ctx)
  | retryExtendedTimeout (connection_name : Option String) (timeout : Nat) (context : Option Ctx)
  | retryDefaults (frontend_name : Option String) (content_type : Option String) (context : Option Ctx)
  | fallbackMapping (frontend_name : Option String) (context : Option Ctx)
  | retryBackoff (frontend_name : Option String) (max_attempts : Nat) (context : Option Ctx)
  | retryTimeout (frontend_name : Option String) (timeout : Nat) (context : Option Ctx)
  | retrySimplified (frontend_name : Option String) (context : Option Ctx)
  deriving Repr, DecidableEq

/-- `FrameworkAction` from `framework/types`. -/
structure FrameworkAction where
  type : ActionType
  target : String
  parameters : ActionParams
  priority : Priority
  dependencies : List String
  id : String
  deriving Repr, DecidableEq

/-- Mutable state of `ErrorHandlingService`: the bounded error log and the
threshold map (the recovery-strategy map is the constructor-initialized one,
embedded below as `recoveryStrategy`). -/
structure ErrState where
  errors : List SystemError
  thresholds : List (String × Nat)
  deriving Repr, DecidableEq

/-- `initializeErrorThresholds`. -/
def initialThresholds : List (String × Nat) :=
  [("EmailInterpretationService", 10),
   ("FrontendConnectionService", 5),
   ("ContentTransformationService", 8),
   ("PublishingExecutionService", 7),
   ("ErrorHandlingService", 3)]

/-- `this.errorThresholds.get(component)`. -/
def lookupThreshold (ths : List (String × Nat)) (c : String) : Option Nat :=
  (ths.find? (fun p => p.1 == c)).map (fun p => p.2)

/-- JavaScript `arr.slice(-n)`; note `slice(-0)` is `slice(0)`, the whole
array. -/
def jsSliceLast {α : Type} (l : List α) (n : Nat) : List α :=
  if n = 0 then l else l.drop (l.length - n)

/-- `logError`: append and keep only the last 1000 entries.  (The console
output is an external effect.) -/
def logError (errs : List SystemError) (e : SystemError) : List SystemError :=
  let errs := errs ++ [e]
  if errs.length > 1000 then jsSliceLast errs 1000 else errs

/-- `getRecentErrors`. -/
def getRecentErrors (errs : List SystemError) (component : String) (limit : Nat) :
    List SystemError :=
  jsSliceLast (errs.filter (fun e => e.component == component)) limit

/-- `getErrorCount`. -/
def getErrorCount (errs : List SystemError) (component : String) : Nat :=
  (errs.filter (fun e => e.component == component)).length

/-- `isErrorThresholdExceeded`. -/
def isErrorThresholdExceeded (s : ErrState) (component : String) : Bool :=
  let threshold := (lookupThreshold s.thresholds component).getD 10
  let recent := getRecentErrors s.errors component threshold
  recent.length ≥ threshold

/-- `handleThresholdExceeded`: the pause action's parameters also carry the
fixed fields `component: 'ErrorHandlingService'`, `severity: 'critical'`,
`action: 'pause_system'`. -/
def handleThresholdExceeded (s : ErrState) (e : SystemError) (now : Nat) :
    List FrameworkAction :=
  [{ type := .error, target := "system",
     parameters := .pauseSystem
       ("Error threshold exceeded for " ++ e.component ++ ". System paused."),
     priority := .high, dependencies := [],
     id := "threshold_exceeded_" ++ toString now },
   { type := .notify, target := "admin",
     parameters := .thresholdNotify
       ("Critical: Error threshold exceeded for " ++ e.component)
       (getErrorCount s.errors e.component)
       (lookupThreshold s.thresholds e.component)
       (getRecentErrors s.errors e.component 5),
     priority := .high, dependencies := [],
     id := "notify_threshold_" ++ toString now }]

/-- The recovery strategy registered for `EmailInterpretationService`. -/
def emailInterpStrategy (e : SystemError) (ctx : Option Ctx) (now : Nat) :
    List FrameworkAction :=
  (if jsIncludes e.error "classification" then
    [{ type := .transform, target := "EmailInterpretationService",
       parameters := .retryClassification "other" ctx,
       priority := .medium, dependencies := [],
       id := "retry_classification_" ++ toString now }] else []) ++
  (if jsIncludes e.error "attachment" then
    [{ type := .transform, target := "EmailInterpretationService",
       parameters := .retryWithoutAttachments ctx,
       priority := .medium, dependencies := [],
       id := "retry_no_attachments_" ++ toString now }] else [])

/-- The recovery strategy registered for `FrontendConnectionService`. -/
def connectionStrategy (e : SystemError) (ctx : Option Ctx) (now : Nat) :
    List FrameworkAction :=
  (if jsIncludes e.error "authentication" then
    [{ type := .connect, target := "FrontendConnectionService",
       parameters := .retryAltAuth (ctx.bind (fun c => c.connection_name)) ctx,
       priority := .high, dependencies := [],
       id := "retry_alt_auth_" ++ toString now }] else []) ++
  (if jsIncludes e.error "connection" then
    [{ type := .connect, target := "FrontendConnectionService",
       parameters := .retryExtendedTimeout (ctx.bind (fun c => c.connection_name)) 30000 ctx,
       priority := .medium, dependencies := [],
       id := "retry_extended_timeout_" ++ toString now }] else [])

/-- The recovery strategy registered for `ContentTransformationService`. -/
def transformStrategy (e : SystemError) (ctx : Option Ctx) (now : Nat) :
    List FrameworkAction :=
  (if jsIncludes e.error "transformation" then
    [{ type := .transform, target := "ContentTransformationService",
       parameters := .retryDefaults (ctx.bind (fun c => c.frontend_name))
         (ctx.bind (fun c => c.content_type)) ctx,
       priority := .medium, dependencies := [],
       id := "retry_defaults_" ++ toString now }] else []) ++
  (if jsIncludes e.error "mapping" then
    [{ type := .transform, target := "ContentTransformationService",
       parameters := .fallbackMapping (ctx.bind (fun c => c.frontend_name)) ctx,
       priority := .medium, dependencies := [],
       id := "fallback_mapping_" ++ toString now }] else [])

/-- The recovery strategy registered for `PublishingExecutionService`. -/
def publishStrategy (e : SystemError) (ctx : Option Ctx) (now : Nat) :
    List FrameworkAction :=
  (if jsIncludes e.error "HTTP" then
    [{ type := .publish, target := "PublishingExecutionService",
       parameters := .retryBackoff (ctx.bind (fun c => c.frontend_name)) 3 ctx,
       priority := .high, dependencies := [],
       id := "retry_backoff_" ++ toString now }] else []) ++
  (if jsIncludes e.error "timeout" then
    [{ type := .publish, target := "PublishingExecutionService",
       parameters := .retryTimeout (ctx.bind (fun c => c.frontend_name)) 60000 ctx,
       priority := .medium, dependencies := [],
       id := "retry_timeout_" ++ toString now }] else []) ++
  (if jsIncludes e.error "validation" then
    [{ type := .publish, target := "PublishingExecutionService",
       parameters := .retrySimplified (ctx.bind (fun c => c.frontend_name)) ctx,
       priority := .medium, dependencies := [],
       id := "retry_simplified_" ++ toString now }] else [])

/-- `initializeRecoveryStrategies`: the constructor-registered strategy map. -/
def recoveryStrategy :
    String → Option (SystemError → Option Ctx → Nat → List FrameworkAction)
  | "EmailInterpretationService" => some emailInterpStrategy
  | "FrontendConnectionService" => some connectionStrategy
  | "ContentTransformationService" => some transformStrategy
  | "PublishingExecutionService" => some publishStrategy
  | _ => none

/-- The in-place `error.resolved = true` mutation followed by
`updateErrorStatus`: the logged alias of `e` (the last log entry) flips to
resolved, and the first `(timestamp, component)`-matching entry is overwritten
with the resolved object. -/
def markResolved (errs : List SystemError) (e : SystemError) : List SystemError :=
  let eRes := { e with resolved := true }
  let errs := errs.dropLast ++ [eRes]
  match errs.findIdx? (fun x => x.timestamp == e.timestamp && x.component == e.component) with
  | some i => errs.set i eRes
  | none => errs

/-- `attemptRecovery` (the registered strategies are total, so the
recovery-failure catch branch is unreachable). -/
def attemptRecovery (s : ErrState) (e : SystemError) (ctx : Option Ctx) (now : Nat) :
    List FrameworkAction × ErrState :=
  match recoveryStrategy e.component with
  | none => ([], s)
  | some strat =>
    let actions := strat e ctx now
    if actions.length > 0 then
      (actions, { s with errors := markResolved s.errors e })
    else
      ([], s)

/-- `getErrorPriority` (the `default: 'medium'` branch is unreachable for the
closed severity union). -/
def getErrorPriority : Severity → Priority
  | .critical => .high
  | .high => .high
  | .medium => .medium
  | .low => .low

/-- `handleError`: log, threshold check, recovery attempt, generic
error-notification fallback.  `now` models `Date.now()` and `rand` the random
id suffix. -/
def handleError (s : ErrState) (e : SystemError) (ctx : Option Ctx) (now : Nat)
    (rand : String) : List FrameworkAction × ErrState :=
  let s1 : ErrState := { s with errors := logError s.errors e }
  if isErrorThresholdExceeded s1 e.component then
    (handleThresholdExceeded s1 e now, s1)
  else
    let rec1 := attemptRecovery s1 e ctx now
    if rec1.1.length > 0 then
      rec1
    else
      ([{ type := .error, target := "system",
          parameters := .errorNotif e.error e.component e.severity ctx,
          priority := getErrorPriority e.severity, dependencies := [],
          id := "error_" ++ toString now ++ "_" ++ rand }], rec1.2)

/-- `clearErrors` with its optional component filter. -/
def clearErrors (s : ErrState) (component : Option String) : ErrState :=
  match component with
  | some c => { s with errors := s.errors.filter (fun e => e.component != c) }
  | none => { s with errors := [] }

end ErrHandling

/-- The string form of a content type, as carried in the TS union. -/
def EmailInterp.ContentType.toStr : EmailInterp.ContentType → String
  | .article => "article"
  | .product => "product"
  | .update => "update"
  | .announcement => "announcement"
  | .other => "other"

/-- The string form of an intent, as carried in the TS union. -/
def EmailInterp.Intent.toStr : EmailInterp.Intent → String
  | .immediate => "immediate"
  | .scheduled => "scheduled"
  | .draft => "draft"

namespace Publishing

open ErrHandling (SystemError Severity)

/-- Untyped JavaScript values as far as the publishing pipeline observes
them. -/
inductive JsonVal
  | null
  | str (s : String)
  | num (n : Int)
  | bool (b : Bool)
  | arr (xs : List JsonVal)
  | obj (fields : List (String × JsonVal))
  deriving Repr

/-- JavaScript truthiness of a value. -/
def JsonVal.truthy : JsonVal → Bool
  | .null => false
  | .str s => s ≠ ""
  | .num n => n ≠ 0
  | .bool b => b
  | .arr _ => true
  | .obj _ => true

/-- Truthiness of a possibly-absent property (`undefined` is falsy). -/
def jsTruthyOpt (o : Option JsonVal) : Bool :=
  match o with
  | none => false
  | some v => v.truthy

/-- Property read on a record (`undefined` as `none`). -/
def getField (o : List (String × JsonVal)) (k : String) : Option JsonVal :=
  (o.find? (fun p => p.1 == k)).map (fun p => p.2)

/-- Property write on a record: an existing key keeps its position, a new key
is appended (JS object insertion order). -/
def setField (o : List (String × JsonVal)) (k : String) (v : JsonVal) :
    List (String × JsonVal) :=
  if o.any (fun p => p.1 == k) then
    o.map (fun p => if p.1 == k then (k, v) else p)
  else
    o ++ [(k, v)]

/-- JavaScript `Object.keys` (strings and arrays expose index keys). -/
def jsObjectKeys : JsonVal → List String
  | .obj fs => fs.map (fun p => p.1)
  | .str s => (List.range s.data.length).map toString
  | .arr xs => (List.range xs.length).map toString
  | _ => []

mutual
/-- JavaScript string conversion as used in template literals (only `str` and
`num` ids occur in practice). -/
def JsonVal.jsToString : JsonVal → String
  | .null => "null"
  | .str s => s
  | .num n => toString n
  | .bool b => cond b "true" "false"
  | .arr xs => jsToStringList xs
  | .obj _ => "[object Object]"

/-- `Array.prototype.toString`: comma-joined element conversions. -/
def jsToStringList : List JsonVal → String
  | [] => ""
  | [x] => x.jsToString
  | x :: xs => x.jsToString ++ "," ++ jsToStringList xs
end

/-- `MediaFile` from `framework/types` (the optional `metadata` sub-object is
flattened to the two fields the Publisher reads). -/
structure MediaFile where
  filename : String
  content_type : String
  data : String
  alt_text : Option String := none
  caption : Option String := none
  deriving Repr, DecidableEq

/-- `ProcessedContent` from `framework/types`. -/
structure ProcessedContent where
  type : EmailInterp.ContentType
  intent : EmailInterp.Intent
  target_frontends : List String
  content : List (String × JsonVal)
  media : List MediaFile
  deriving Repr

/-- `FrontendConnection` from `framework/types`.  `auth_type` is kept as a raw
string so invalid kinds can be expressed. -/
structure FrontendConnection where
  name : String
  api_endpoint : String
  auth_type : String
  credentials : String
  api_schema : String
  is_active : Bool
  last_used : String
  deriving Repr, DecidableEq

/-- The parsed `request_body` schema of an endpoint. -/
structure RequestBodySchema where
  properties : List (String × JsonVal)
  required : List String
  deriving Repr

/-- `ApiEndpoint` from `framework/types` (the fields the Publisher reads). -/
structure ApiEndpoint where
  path : String
  method : String
  request_body : Option RequestBodySchema := none
  deriving Repr

/-- `FrontendSchema` from `framework/types` (the fields the Publisher
reads). -/
structure FrontendSchema where
  name : String
  version : String
  endpoints : List ApiEndpoint
  deriving Repr

/-- The `auth` descriptor embedded in an `APIRequest`. -/
structure AuthInfo where
  type : String
  credentials : String
  deriving Repr, DecidableEq

/-- `APIRequest` from `framework/types`. -/
structure APIRequest where
  method : String
  url : String
  headers : List (String × String)
  body : List (String × JsonVal)
  auth : AuthInfo
  deriving Repr

/-- `ProcessingResult` from `framework/types`. -/
structure ProcessingResult where
  success : Bool
  processed_content : ProcessedContent
  api_requests : List APIRequest
  errors : List SystemError
  execution_time : Nat
  deriving Repr

/-- `typeToEndpointMap` in `findEndpointForContentType`, together with the
`|| ['/content']` fallback for types missing from the map. -/
def typeToEndpointPaths : EmailInterp.ContentType → List String
  | .article => ["/articles", "/posts", "/content", "/blog"]
  | .product => ["/products", "/items", "/listings"]
  | .update => ["/updates", "/news", "/announcements"]
  | .announcement => ["/announcements", "/news", "/updates"]
  | .other => ["/content"]

/-- `findEndpointForContentType`. -/
def findEndpointForContentType (schema : FrontendSchema) (ct : EmailInterp.ContentType) :
    Option ApiEndpoint :=
  let possiblePaths := typeToEndpointPaths ct
  schema.endpoints.find? (fun ep =>
    possiblePaths.any (fun p => jsIncludes ep.path p) &&
    (ep.method == "POST" || ep.method == "PUT" || ep.method == "PATCH"))

/-- `createAuthHeaders` (shared shape in both services; unknown auth kinds get
no `Authorization` header). -/
def createAuthHeaders (conn : FrontendConnection) : List (String × String) :=
  let base := [("Content-Type", "application/json"),
               ("User-Agent", "LLM-Backend-Framework/1.0")]
  match conn.auth_type with
  | "api_key" => base ++ [("Authorization", "Bearer " ++ conn.credentials)]
  | "jwt" => base ++ [("Authorization", "JWT " ++ conn.credentials)]
  | "oauth2" => base ++ [("Authorization", "OAuth " ++ conn.credentials)]
  | _ => base

/-- The projection of one media file performed in `prepareRequestBody`. -/
def mediaJson (m : MediaFile) : JsonVal :=
  .obj [("filename", .str m.filename),
        ("content_type", .str m.content_type),
        ("data", .str m.data),
        ("alt_text", .str (m.alt_text.getD "")),
        ("caption", .str (m.caption.getD ""))]

/-- `prepareRequestBody`. -/
def prepareRequestBody (pc : ProcessedContent) (ep : ApiEndpoint) :
    List (String × JsonVal) :=
  let body := pc.content
  let body := if !(jsTruthyOpt (getField body "type")) then
      setField body "type" (.str pc.type.toStr)
    else body
  let body := if pc.media.length > 0 then
      setField body "media" (.arr (pc.media.map mediaJson))
    else body
  let md := getField pc.content "metadata"
  let mdKeys := match md with
    | some v => if v.truthy then jsObjectKeys v else []
    | none => []
  let body := if mdKeys.length > 0 then
      setField body "metadata" (md.getD .null)
    else body
  let body := setField body "publishing_intent" (.str pc.intent.toStr)
  match ep.request_body with
  | some rb =>
    let filtered := rb.required.foldl (fun acc f =>
      match getField body f with
      | some v => setField acc f v
      | none => acc) []
    (rb.properties.map (fun p => p.1)).foldl (fun acc f =>
      match getField body f with
      | some v => if !(jsTruthyOpt (getField acc f)) then setField acc f v else acc
      | none => acc) filtered
  | none => body

/-- The id appended to PUT/PATCH urls: `content.id || content.metadata?.id ||
Date.now().toString()`. -/
def contentIdOf (pc : ProcessedContent) (now : Nat) : String :=
  let idv := getField pc.content "id"
  if jsTruthyOpt idv then (idv.getD .null).jsToString
  else
    let mid := match getField pc.content "metadata" with
      | some (.obj fs) => getField fs "id"
      | _ => none
    if jsTruthyOpt mid then (mid.getD .null).jsToString
    else toString now

/-- `createPostRequest`. -/
def createPostRequest (pc : ProcessedContent) (conn : FrontendConnection)
    (ep : ApiEndpoint) : APIRequest :=
  { method := "POST",
    url := stripTrailingSlash conn.api_endpoint ++ ep.path,
    headers := createAuthHeaders conn,
    body := prepareRequestBody pc ep,
    auth := { type := conn.auth_type, credentials := conn.credentials } }

/-- `createPutRequest`. -/
def createPutRequest (pc : ProcessedContent) (conn : FrontendConnection)
    (ep : ApiEndpoint) (now : Nat) : APIRequest :=
  { method := "PUT",
    url := stripTrailingSlash conn.api_endpoint ++ ep.path ++ "/" ++ contentIdOf pc now,
    headers := createAuthHeaders conn,
    body := prepareRequestBody pc ep,
    auth := { type := conn.auth_type, credentials := conn.credentials } }

/-- `createPatchRequest`. -/
def createPatchRequest (pc : ProcessedContent) (conn : FrontendConnection)
    (ep : ApiEndpoint) (now : Nat) : APIRequest :=
  { method := "PATCH",
    url := stripTrailingSlash conn.api_endpoint ++ ep.path ++ "/" ++ contentIdOf pc now,
    headers := createAuthHeaders conn,
    body := prepareRequestBody pc ep,
    auth := { type := conn.auth_type, credentials := conn.credentials } }

/-- `generateAPIRequests`: fails on a missing endpoint; the `default` branch of
the method switch is unreachable after the find filter but is kept. -/
def generateAPIRequests (pc : ProcessedContent) (conn : FrontendConnection)
    (schema : FrontendSchema) (now : Nat) : Except String (List APIRequest) :=
  match findEndpointForContentType schema pc.type with
  | none => .error ("No suitable endpoint found for content type: " ++ pc.type.toStr)
  | some ep =>
    match ep.method with
    | "POST" => .ok [createPostRequest pc conn ep]
    | "PUT" => .ok [createPutRequest pc conn ep now]
    | "PATCH" => .ok [createPatchRequest pc conn ep now]
    | m => .error ("Unsupported HTTP method: " ++ m)

end Publishing

namespace Publishing

/-- Outcome of one host `fetch` call: a 2xx response, a non-2xx response
(carrying the `HTTP status: text` message), or a thrown transport error. -/
inductive FetchOutcome
  | ok
  | notOk (msg : String)
  | threw (msg : String)
  deriving Repr, DecidableEq

/-- The error message produced when the initial send fails. -/
def FetchOutcome.failMsg : FetchOutcome → String
  | .ok => ""
  | .notOk m => m
  | .threw m => m

/-- Instrumentation trace of the recovery chain (sleeps and send attempts, in
order). -/
inductive RecEvent
  | sleep (ms : Nat)
  | backoffAttempt (i : Nat)
  | altAuthAttempt (header : String)
  | simplifiedAttempt
  deriving Repr, DecidableEq

/-- The backoff delay table of `retryWithBackoff`. -/
def backoffDelays : List Nat := [1000, 3000, 5000]

/-- The loop of `retryWithBackoff` over the remaining delays; `i` is the
attempt index and `cnt` the position in the fetch-outcome stream. -/
def backoffGo (fetchO : Nat → FetchOutcome) : List Nat → Nat → Nat →
    Bool × List RecEvent × Nat
  | [], _, cnt => (false, [], cnt)
  | d :: rest, i, cnt =>
    let ev := [RecEvent.sleep d, RecEvent.backoffAttempt i]
    match fetchO cnt with
    | .ok => (true, ev, cnt + 1)
    | _ =>
      let (okRest, evRest, cnt') := backoffGo fetchO rest (i + 1) (cnt + 1)
      (okRest, ev ++ evRest, cnt')

/-- `retryWithBackoff`: sleep 1000/3000/5000 ms before each of up to three
resends of the identical request; throws (returns `false`) if none gets a 2xx
response. -/
def retryWithBackoff (fetchO : Nat → FetchOutcome) (cnt : Nat) :
    Bool × List RecEvent × Nat :=
  backoffGo fetchO backoffDelays 0 cnt

/-- The `alternativeAuths` table of `retryWithAlternativeAuth` (the header each
attempt rewrites). -/
def alternativeAuthHeaders : List String := ["X-API-Key", "Authorization", "Authorization"]

/-- The loop of `retryWithAlternativeAuth`. -/
def altAuthGo (fetchO : Nat → FetchOutcome) : List String → Nat →
    Bool × List RecEvent × Nat
  | [], cnt => (false, [], cnt)
  | h :: rest, cnt =>
    let ev := [RecEvent.altAuthAttempt h]
    match fetchO cnt with
    | .ok => (true, ev, cnt + 1)
    | _ =>
      let (okRest, evRest, cnt') := altAuthGo fetchO rest (cnt + 1)
      (okRest, ev ++ evRest, cnt')

/-- `retryWithAlternativeAuth`: resend with each alternative auth header until
one gets a 2xx response. -/
def retryWithAlternativeAuth (fetchO : Nat → FetchOutcome) (cnt : Nat) :
    Bool × List RecEvent × Nat :=
  altAuthGo fetchO alternativeAuthHeaders cnt

/-- `retryWithSimplifiedContent`: one resend with the body cut to the essential
fields.  Only a thrown fetch makes it fail — a non-2xx response falls through
the `if` and the strategy completes normally (i.e. counts as recovered). -/
def retryWithSimplifiedContent (fetchO : Nat → FetchOutcome) (cnt : Nat) :
    Bool × List RecEvent × Nat :=
  match fetchO cnt with
  | .threw _ => (false, [RecEvent.simplifiedAttempt], cnt + 1)
  | _ => (true, [RecEvent.simplifiedAttempt], cnt + 1)

/-- `attemptRecovery`: the strategy chain in its fixed order, stopping at the
first strategy that does not throw; exhausting all three appends the final
critical error. -/
def attemptRecovery (conn : FrontendConnection) (origMsg : String)
    (fetchO : Nat → FetchOutcome) (cnt : Nat) (ts : String) :
    List RecEvent × List ErrHandling.SystemError × Nat :=
  let (bOk, bTr, cnt1) := retryWithBackoff fetchO cnt
  if bOk then (bTr, [], cnt1)
  else
    let (aOk, aTr, cnt2) := retryWithAlternativeAuth fetchO cnt1
    if aOk then (bTr ++ aTr, [], cnt2)
    else
      let (sOk, sTr, cnt3) := retryWithSimplifiedContent fetchO cnt2
      if sOk then (bTr ++ aTr ++ sTr, [], cnt3)
      else
        (bTr ++ aTr ++ sTr,
         [{ timestamp := ts,
            error := "All recovery strategies failed for " ++ conn.name ++ ": " ++ origMsg,
            severity := .critical,
            component := "PublishingExecutionService",
            resolved := false }],
         cnt3)

/-- One iteration of the `executeRequests` loop: a failed send records a
high-severity instance error and runs the recovery chain. -/
def executeOneRequest (conn : FrontendConnection) (fetchO : Nat → FetchOutcome)
    (cnt : Nat) (ts : String) :
    List ErrHandling.SystemError × List RecEvent × Nat :=
  match fetchO cnt with
  | .ok => ([], [], cnt + 1)
  | outcome =>
    let firstErr : ErrHandling.SystemError :=
      { timestamp := ts,
        error := "Failed to execute request to " ++ conn.name ++ ": " ++ outcome.failMsg,
        severity := .high,
        component := "PublishingExecutionService",
        resolved := false }
    let (tr, finalErrs, cnt') := attemptRecovery conn outcome.failMsg fetchO (cnt + 1) ts
    ([firstErr] ++ finalErrs, tr, cnt')

/-- `executeRequests`: sequential sends of the generated requests.  (The
in-place `connection.last_used` refresh on a successful send is an effect on
the caller-owned object and is not tracked here.) -/
def executeRequests (requests : List APIRequest) (conn : FrontendConnection)
    (fetchO : Nat → FetchOutcome) (cnt : Nat) (ts : String) :
    List ErrHandling.SystemError × List RecEvent × Nat :=
  requests.foldl (fun acc _req =>
    let (errs, tr, cnt) := acc
    let (errs', tr', cnt') := executeOneRequest conn fetchO cnt ts
    (errs ++ errs', tr ++ tr', cnt'))
    (([] : List ErrHandling.SystemError), ([] : List RecEvent), cnt)

/-- Instance state of `PublishingExecutionService` plus the position in the
host fetch-outcome stream. -/
structure PubState where
  instanceErrors : List ErrHandling.SystemError
  executionHistory : List ProcessingResult
  fetchCount : Nat
  deriving Repr

/-- `schemas.get(connection.name)`. -/
def lookupSchema (schemas : List (String × FrontendSchema)) (name : String) :
    Option FrontendSchema :=
  (schemas.find? (fun p => p.1 == name)).map (fun p => p.2)

/-- The per-connection `try` body of the `executePublishing` loop: request
generation errors (missing schema, no endpoint, bad method) land in the
run-local error list; send failures land in the instance error list. -/
def processConnection (pc : ProcessedContent)
    (schemas : List (String × FrontendSchema)) (fetchO : Nat → FetchOutcome)
    (ts : String) (now : Nat)
    (acc : List APIRequest × List ErrHandling.SystemError × List ErrHandling.SystemError × Nat)
    (conn : FrontendConnection) :
    List APIRequest × List ErrHandling.SystemError × List ErrHandling.SystemError × Nat :=
  let (reqs, errs, instErrs, cnt) := acc
  let genFail (msg : String) : ErrHandling.SystemError :=
    { timestamp := ts,
      error := "Failed to generate requests for " ++ conn.name ++ ": " ++ msg,
      severity := .high,
      component := "PublishingExecutionService",
      resolved := false }
  match lookupSchema schemas conn.name with
  | none => (reqs, errs ++ [genFail ("No schema found for frontend: " ++ conn.name)], instErrs, cnt)
  | some schema =>
    match generateAPIRequests pc conn schema now with
    | .error msg => (reqs, errs ++ [genFail msg], instErrs, cnt)
    | .ok newReqs =>
      if pc.intent = .immediate then
        let (instNew, _tr, cnt') := executeRequests newReqs conn fetchO cnt ts
        (reqs ++ newReqs, errs, instErrs ++ instNew, cnt')
      else
        (reqs ++ newReqs, errs, instErrs, cnt)

/-- The connection filter at the head of `executePublishing`. -/
def targetConnectionsOf (pc : ProcessedContent)
    (conns : List FrontendConnection) : List FrontendConnection :=
  conns.filter (fun c =>
    c.is_active &&
    (pc.target_frontends.contains "all" || pc.target_frontends.contains c.name))

/-- `executePublishing`.  `ts` models `new Date().toISOString()`, `now` models
`Date.now()` for PUT/PATCH id synthesis, and `elapsed` the measured execution
time.  Zero eligible connections throws, which the outer catch converts into a
single-critical-error failure result; both paths append the result to the
execution history. -/
def executePublishing (pc : ProcessedContent) (conns : List FrontendConnection)
    (schemas : List (String × FrontendSchema)) (fetchO : Nat → FetchOutcome)
    (st : PubState) (ts : String) (now : Nat) (elapsed : Nat) :
    ProcessingResult × PubState :=
  let targetConnections := targetConnectionsOf pc conns
  if targetConnections.length = 0 then
    let result : ProcessingResult :=
      { success := false,
        processed_content := pc,
        api_requests := [],
        errors := [{ timestamp := ts,
                     error := "Publishing execution failed: No active frontend connections found for publishing",
                     severity := .critical,
                     component := "PublishingExecutionService",
                     resolved := false }],
        execution_time := elapsed }
    (result, { st with executionHistory := st.executionHistory ++ [result] })
  else
    let (reqs, errs, instNew, cnt') :=
      targetConnections.foldl (processConnection pc schemas fetchO ts now)
        ([], [], [], st.fetchCount)
    let success := errs.length == 0 || errs.length < targetConnections.length
    let result : ProcessingResult :=
      { success := success,
        processed_content := pc,
        api_requests := reqs,
        errors := errs,
        execution_time := elapsed }
    (result,
     { instanceErrors := st.instanceErrors ++ instNew,
       executionHistory := st.executionHistory ++ [result],
       fetchCount := cnt' })

end Publishing

namespace Controller

/-- The overall-status union of `FrameworkOutput.status`. -/
inductive OverallStatus
  | success | partialSuccess | failure
  deriving Repr, DecidableEq

/-- `FrameworkController.determineOverallStatus`: stage error lists plus the
accumulated per-destination publishing results. -/
def determineOverallStatus
    (interpErrs connErrs transErrs pubErrs : List ErrHandling.SystemError)
    (results : List Publishing.ProcessingResult) : OverallStatus :=
  let totalErrors :=
    interpErrs.length + connErrs.length + transErrs.length + pubErrs.length
  let successfulPublishing := (results.filter (fun r => r.success)).length
  let totalPublishing := results.length
  if totalErrors == 0 && successfulPublishing == totalPublishing then
    .success
  else if successfulPublishing > 0 || totalErrors < 3 then
    .partialSuccess
  else
    .failure

end Controller

/-- JavaScript `String.prototype.toUpperCase` (ASCII case mapping). -/
def jsToUpper (s : String) : String :=
  ⟨s.data.map Char.toUpper⟩

namespace ConnMgr

open Publishing (JsonVal FrontendConnection FrontendSchema ApiEndpoint
  RequestBodySchema FetchOutcome getField jsTruthyOpt)

/-- Property access `v.k` treating non-objects as having no properties. -/
def jsGet (v : JsonVal) (k : String) : Option JsonVal :=
  match v with
  | .obj fs => getField fs k
  | _ => none

/-- Host behaviour consumed by `FrontendConnectionService`: the `URL`
constructor, the outcome of each outbound `fetch` (numbered in call order),
each response's `json()` payload, and `JSON.parse`. -/
structure HostOracle where
  urlValid : String → Bool
  fetchOutcome : Nat → FetchOutcome
  fetchJson : Nat → Option JsonVal
  jsonParse : String → Option JsonVal

/-- Instance state of `FrontendConnectionService`; `fetchCount` is the
position in the host fetch stream and doubles as the number of outbound
requests issued so far. -/
structure ConnState where
  connections : List (String × FrontendConnection)
  schemas : List (String × FrontendSchema)
  errors : List ErrHandling.SystemError
  fetchCount : Nat
  deriving Repr

/-- A high-severity validation error record. -/
def validationError (ts msg : String) : ErrHandling.SystemError :=
  { timestamp := ts, error := msg, severity := .high,
    component := "FrontendConnectionService", resolved := false }

/-- `validateConnection`: required-field presence (JS falsiness, so the empty
string counts as missing), auth-kind membership, URL syntax. -/
def validateConnection (conn : FrontendConnection) (st : ConnState)
    (O : HostOracle) (ts : String) : Bool × ConnState :=
  if conn.name == "" then
    (false, { st with errors := st.errors ++ [validationError ts "Missing required field: name"] })
  else if conn.api_endpoint == "" then
    (false, { st with errors := st.errors ++ [validationError ts "Missing required field: api_endpoint"] })
  else if conn.auth_type == "" then
    (false, { st with errors := st.errors ++ [validationError ts "Missing required field: auth_type"] })
  else if conn.credentials == "" then
    (false, { st with errors := st.errors ++ [validationError ts "Missing required field: credentials"] })
  else if !(["oauth2", "api_key", "jwt"].contains conn.auth_type) then
    (false, { st with errors := st.errors ++ [validationError ts ("Invalid auth type: " ++ conn.auth_type)] })
  else if !(O.urlValid conn.api_endpoint) then
    (false, { st with errors := st.errors ++ [validationError ts ("Invalid API endpoint URL: " ++ conn.api_endpoint)] })
  else
    (true, st)

/-- `testConnection`: one authenticated GET probe; a thrown fetch records a
medium-severity error, a non-2xx response just returns `false`. -/
def testConnection (conn : FrontendConnection) (st : ConnState)
    (O : HostOracle) (ts : String) : Bool × ConnState :=
  let st1 := { st with fetchCount := st.fetchCount + 1 }
  match O.fetchOutcome st.fetchCount with
  | .ok => (true, st1)
  | .notOk _ => (false, st1)
  | .threw msg =>
    (false, { st1 with errors := st1.errors ++
      [{ timestamp := ts,
         error := "Connection test failed for " ++ conn.name ++ ": " ++ msg,
         severity := .medium, component := "FrontendConnectionService",
         resolved := false }] })

/-- `parseSchema`: `null`/`undefined` schemas yield `null` (no request body);
otherwise properties and required lists with `|| {}` / `|| []` defaults. -/
def parseSchemaVal : Option JsonVal → Option RequestBodySchema
  | none => none
  | some v =>
    if !v.truthy then none
    else
      some { properties := match jsGet v "properties" with
               | some (.obj ps) => ps
               | _ => [],
             required := match jsGet v "required" with
               | some (.arr xs) => xs.map Publishing.JsonVal.jsToString
               | _ => [] }

/-- The endpoint built for one `(path, method, operation)` triple in
`parseOpenAPISchema` (only the fields the Publisher reads are kept). -/
def endpointOfOperation (path method : String) (op : JsonVal) : ApiEndpoint :=
  let rb := match jsGet op "requestBody" with
    | some rbv => if rbv.truthy then parseSchemaVal (jsGet rbv "schema") else none
    | none => none
  { path := path, method := jsToUpper method, request_body := rb }

/-- The per-path expansion of `parseOpenAPISchema` (the `parameters`
pseudo-method is skipped). -/
def endpointsOfPath (path : String) (methodsv : JsonVal) : List ApiEndpoint :=
  match methodsv with
  | .obj methods =>
    (methods.filter (fun p => p.1 != "parameters")).map
      (fun p => endpointOfOperation path p.1 p.2)
  | _ => []

/-- The core of `parseOpenAPISchema` on an already-parsed document.  (The
source round-trips the fetched document through `JSON.stringify`/`JSON.parse`,
which is the identity on JSON values.) -/
def parseOpenAPISchemaVal (spec : JsonVal) : FrontendSchema :=
  let endpoints := match jsGet spec "paths" with
    | some (.obj paths) =>
      paths.foldl (fun acc p => acc ++ endpointsOfPath p.1 p.2) []
    | _ => []
  let name := match (jsGet spec "info").bind (fun i => jsGet i "title") with
    | some t => if t.truthy then t.jsToString else "Unknown API"
    | none => "Unknown API"
  let version := match (jsGet spec "info").bind (fun i => jsGet i "version") with
    | some t => if t.truthy then t.jsToString else "1.0.0"
    | none => "1.0.0"
  { name := name, version := version, endpoints := endpoints }

/-- `parseOpenAPISchema` on a string: a host `JSON.parse` failure throws. -/
def parseOpenAPISchema (specStr : String) (O : HostOracle) :
    Except String FrontendSchema :=
  match O.jsonParse specStr with
  | none => .error "Failed to parse OpenAPI spec: invalid JSON"
  | some spec => .ok (parseOpenAPISchemaVal spec)

/-- `fetchOpenAPISchema`: fetch the document (the response's ok-flag is not
checked) and parse its JSON payload; transport or parse failures throw. -/
def fetchOpenAPISchema (st : ConnState) (O : HostOracle) :
    Except String FrontendSchema × ConnState :=
  let st1 := { st with fetchCount := st.fetchCount + 1 }
  match O.fetchOutcome st.fetchCount with
  | .threw msg => (.error msg, st1)
  | _ =>
    match O.fetchJson st.fetchCount with
    | none => (.error "Failed to parse response JSON", st1)
    | some spec => (.ok (parseOpenAPISchemaVal spec), st1)

/-- The conventional paths probed by `discoverSchemaByProbing`. -/
def commonEndpoints : List String :=
  ["/api/articles", "/api/posts", "/api/products", "/api/content", "/api/items"]

/-- `discoverSchemaByProbing`: probe each conventional path; every successful
GET contributes a GET and a POST endpoint; failed probes are skipped. -/
def discoverSchemaByProbing (conn : FrontendConnection) (st : ConnState)
    (O : HostOracle) : FrontendSchema × ConnState :=
  let (endpoints, st') := commonEndpoints.foldl (fun acc path =>
    let (eps, st) := acc
    let st1 : ConnState := { st with fetchCount := st.fetchCount + 1 }
    match O.fetchOutcome st.fetchCount with
    | .ok => (eps ++ [{ path := path, method := "GET" },
                      { path := path, method := "POST" }], st1)
    | _ => (eps, st1)) (([] : List ApiEndpoint), st)
  ({ name := conn.name, version := "1.0.0", endpoints := endpoints }, st')

/-- `createDefaultSchema`. -/
def createDefaultSchema (name : String) : FrontendSchema :=
  { name := name, version := "1.0.0",
    endpoints := [
      { path := "/api/content", method := "POST",
        request_body := some
          { properties := [("title", .obj [("type", .str "string")]),
                           ("body", .obj [("type", .str "string")]),
                           ("type", .obj [("type", .str "string")])],
            required := ["title", "body"] } }] }

/-- `discoverAPISchema`: URL spec, inline spec, then probing; any thrown
failure is converted to a medium-severity error and the default schema. -/
def discoverAPISchema (conn : FrontendConnection) (st : ConnState)
    (O : HostOracle) (ts : String) : FrontendSchema × ConnState :=
  let attempt : Except String FrontendSchema × ConnState :=
    if conn.api_schema.startsWith "http" then
      fetchOpenAPISchema st O
    else if conn.api_schema.startsWith "\x7b" then
      (parseOpenAPISchema conn.api_schema O, st)
    else
      let (schema, st') := discoverSchemaByProbing conn st O
      (.ok schema, st')
  match attempt with
  | (.ok schema, st') => (schema, st')
  | (.error msg, st') =>
    (createDefaultSchema conn.name,
     { st' with errors := st'.errors ++
       [{ timestamp := ts,
          error := "Schema discovery failed for " ++ conn.name ++ ": " ++ msg,
          severity := .medium, component := "FrontendConnectionService",
          resolved := false }] })

/-- Store or replace a keyed entry (JS `Map.set`). -/
def mapSet {α : Type} (m : List (String × α)) (k : String) (v : α) :
    List (String × α) :=
  if m.any (fun p => p.1 == k) then
    m.map (fun p => if p.1 == k then (k, v) else p)
  else
    m ++ [(k, v)]

/-- `manageConnection`: validate, probe, discover, store; the stored connection
reflects the in-place `last_used`/`is_active` refresh.  Every host failure mode
is caught inside the helpers, mirroring the source's try/catch placement, so
the outer catch never fires and the function is total. -/
def manageConnection (conn : FrontendConnection) (st : ConnState)
    (O : HostOracle) (ts : String) : Bool × ConnState :=
  let (vOk, st1) := validateConnection conn st O ts
  if !vOk then (false, st1)
  else
    let (isConnected, st2) := testConnection conn st1 O ts
    if isConnected then
      let (schema, st3) := discoverAPISchema conn st2 O ts
      let conn' := { conn with last_used := ts, is_active := true }
      (true, { st3 with
        connections := mapSet st3.connections conn.name conn',
        schemas := mapSet st3.schemas conn.name schema })
    else
      (false, st2)

end ConnMgr

/-- Classification of recovery-trace events: backoff resends. -/
def isBackoffEvent : Publishing.RecEvent → Bool
  | .backoffAttempt _ => true
  | _ => false

/-- Classification of recovery-trace events: alternative-auth resends. -/
def isAltAuthEvent : Publishing.RecEvent → Bool
  | .altAuthAttempt _ => true
  | _ => false

/-- Strategy stage of a recovery-trace event: backoff (with its sleeps) 0,
alternative auth 1, simplified content 2. -/
def eventStage : Publishing.RecEvent → Nat
  | .sleep _ => 0
  | .backoffAttempt _ => 0
  | .altAuthAttempt _ => 1
  | .simplifiedAttempt => 2

/-- Whether a fetch outcome is a 2xx response. -/
def outcomeOk : Publishing.FetchOutcome → Bool
  | .ok => true
  | _ => false

/-! ### Concrete fixtures used by witnesses and counterexamples -/

/-- The scenario message of the spec: subject `New Blog Post: X`, body
`content #blog priority: high publish now`. -/
def scenarioEmail : EmailInterp.EmailData :=
  { subject := "New Blog Post: X",
    body := "content #blog priority: high publish now",
    attachments := [], sender := "author@example.com", timestamp := "t0" }

/-- Same body as `scenarioEmail`, different subject (for the body-only
dependence witness). -/
def scenarioEmailAltSubject : EmailInterp.EmailData :=
  { scenarioEmail with subject := "Totally different subject" }


/-- A coordinator-component error record. -/
def coordError (i : Nat) : ErrHandling.SystemError :=
  { timestamp := "t" ++ toString i,
    error := "coordinator failure " ++ toString i,
    severity := .high, component := "ErrorHandlingService", resolved := false }

/-- An error-handling state already holding three coordinator errors — at its
configured threshold of 3. -/
def thresholdState : ErrHandling.ErrState :=
  { errors := [coordError 1, coordError 2, coordError 3],
    thresholds := ErrHandling.initialThresholds }

/-- A fresh error-handling state (constructor-initialized thresholds, empty
log). -/
def genericErrState : ErrHandling.ErrState :=
  { errors := [], thresholds := ErrHandling.initialThresholds }

/-- An error owned by a component with no registered recovery strategy. -/
def controllerError : ErrHandling.SystemError :=
  { timestamp := "t", error := "unexpected failure", severity := .low,
    component := "FrameworkController", resolved := false }

/-- An active api-key destination. -/
def mkActiveConn (n : String) : Publishing.FrontendConnection :=
  { name := n, api_endpoint := "https://example.com", auth_type := "api_key",
    credentials := "secret", api_schema := "", is_active := true, last_used := "" }

/-- A schema exposing a single `POST /api/content` endpoint. -/
def contentPostSchema : Publishing.FrontendSchema :=
  { name := "s", version := "1.0.0",
    endpoints := [{ path := "/api/content", method := "POST" }] }

/-- An article for immediate publication to all destinations. -/
def scenarioContent : Publishing.ProcessedContent :=
  { type := .article, intent := .immediate, target_frontends := ["all"],
    content := [("title", .str "T"), ("body", .str "B")], media := [] }

/-- A fresh publishing-service state. -/
def emptyPubState : Publishing.PubState :=
  { instanceErrors := [], executionHistory := [], fetchCount := 0 }

/-- Three active destinations. -/
def threeConns : List Publishing.FrontendConnection :=
  [mkActiveConn "site_a", mkActiveConn "site_b", mkActiveConn "site_c"]

/-- Schemas for only the first two destinations — request generation for the
third fails non-recoverably. -/
def twoSchemas : List (String × Publishing.FrontendSchema) :=
  [("site_a", contentPostSchema), ("site_b", contentPostSchema)]

/-- An inactive destination. -/
def inactiveConn : Publishing.FrontendConnection :=
  { mkActiveConn "site_a" with is_active := false }

/-- A destination with an unsupported auth kind. -/
def badAuthConn : Publishing.FrontendConnection :=
  { mkActiveConn "site_a" with auth_type := "basic" }

/-- A host where every URL parses and every fetch succeeds. -/
def permissiveOracle : ConnMgr.HostOracle :=
  { urlValid := fun _ => true, fetchOutcome := fun _ => .ok,
    fetchJson := fun _ => none, jsonParse := fun _ => none }

/-- A fresh connection-service state. -/
def emptyConnState : ConnMgr.ConnState :=
  { connections := [], schemas := [], errors := [], fetchCount := 0 }

/-- A host where every fetch throws a transport error. -/
def allFailFetch : Nat → Publishing.FetchOutcome := fun _ => .threw "network error"

/-! ### Claim theorems -/

/-- C2 (counterexample): for the scenario message the classifier does NOT
produce target_frontends `['all']` — the body's `#blog` hashtag matches the
`blog` destination keyword. -/
theorem scenario_triple_not_all :
    EmailInterp.interpretTriple scenarioEmail ≠
      (.article, .immediate, ["all"]) := by
  decide

/-- C2 (amended): the scenario message classifies as type `article`, intent
`immediate`, and target_frontends `['blog']`. -/
theorem scenario_triple_eq_blog :
    EmailInterp.interpretTriple scenarioEmail =
      (.article, .immediate, ["blog"]) := by
  decide

/-- C9: intent and target frontends depend only on the message body — two
emails with identical bodies yield the same intent and the same target
list. -/
theorem intent_targets_body_only (e1 e2 : EmailInterp.EmailData)
    (h : e1.body = e2.body) :
    EmailInterp.determineIntent e1.body = EmailInterp.determineIntent e2.body ∧
    EmailInterp.extractTargetFrontends e1.body =
      EmailInterp.extractTargetFrontends e2.body := by
  rw [h]
  exact ⟨rfl, rfl⟩

/-- C9 witness: the scenario email and its altered-subject twin. -/
theorem intent_targets_body_only_witness :
    scenarioEmail.body = scenarioEmailAltSubject.body ∧
    (EmailInterp.determineIntent scenarioEmail.body =
       EmailInterp.determineIntent scenarioEmailAltSubject.body ∧
     EmailInterp.extractTargetFrontends scenarioEmail.body =
       EmailInterp.extractTargetFrontends scenarioEmailAltSubject.body) :=
  ⟨rfl, intent_targets_body_only scenarioEmail scenarioEmailAltSubject rfl⟩

/-- Auxiliary: counting a `p`-satisfying element is unchanged by filtering
with `p`. -/
theorem count_filter_pred {α : Type} [DecidableEq α] (p : α → Bool) (l : List α)
    (a : α) (h : p a = true) : (l.filter p).count a = l.count a := by
  induction l with
  | nil => rfl
  | cons y ys ih =>
    by_cases hy : p y = true
    · rw [List.filter_cons_of_pos hy]
      simp [List.count_cons, ih]
    · rw [List.filter_cons_of_neg (by simp [hy])]
      have hyne : y ≠ a := fun he => hy (he ▸ h)
      have hya : (a == y) = false := beq_eq_false_iff_ne.mpr (Ne.symm hyne)
      simp [List.count_cons, hya, ih, hyne]

/-- C10: `clearErrors(component)` keeps exactly the errors of other
components, as a subsequence (original relative order) with unchanged
multiplicities, and `clearErrors()` empties the log. -/
theorem clearErrors_spec (s : ErrHandling.ErrState) (c : String) :
    ((ErrHandling.clearErrors s (some c)).errors.Sublist s.errors) ∧
    (∀ x : ErrHandling.SystemError,
      (ErrHandling.clearErrors s (some c)).errors.count x =
        if x.component = c then 0 else s.errors.count x) ∧
    ((ErrHandling.clearErrors s none).errors = []) := by
  refine ⟨List.filter_sublist _, fun x => ?_, rfl⟩
  simp only [ErrHandling.clearErrors]
  by_cases hx : x.component = c
  · rw [if_pos hx, List.count_eq_zero]
    intro hmem
    rcases List.mem_filter.mp hmem with ⟨_, hpred⟩
    simp [hx] at hpred
  · rw [if_neg hx]
    exact count_filter_pred _ _ _ (by simp [hx])

/-- Auxiliary: a filter keeps full length iff every element satisfies the
predicate. -/
theorem length_filter_eq_iff_all {α : Type} (p : α → Bool) (l : List α) :
    ((l.filter p).length = l.length) ↔ ∀ a ∈ l, p a = true := by
  induction l with
  | nil => simp
  | cons x xs ih =>
    cases hx : p x with
    | true =>
      simp only [List.filter_cons_of_pos hx, List.length_cons,
        Nat.add_right_cancel_iff, List.mem_cons]
      constructor
      · intro h a ha
        rcases ha with rfl | ha
        · exact hx
        · exact (ih.mp h) a ha
      · intro h
        exact ih.mpr (fun a ha => h a (Or.inr ha))
    | false =>
      have hle := List.length_filter_le p xs
      simp only [List.filter_cons, hx, Bool.false_eq_true, if_false, List.length_cons]
      constructor
      · intro h
        omega
      · intro h
        exact absurd (h x (List.mem_cons_self x xs)) (by simp [hx])

/-- Auxiliary: a filter is empty iff no element satisfies the predicate. -/
theorem length_filter_eq_zero_iff_none {α : Type} (p : α → Bool) (l : List α) :
    ((l.filter p).length = 0) ↔ ∀ a ∈ l, p a = false := by
  rw [List.length_eq_zero, List.filter_eq_nil_iff]
  simp

/-- C4: `determineOverallStatus` is `success` iff the total stage error count
is zero and every publish attempt succeeded; `failure` iff no publish attempt
succeeded and the total error count is at least 3; `partial_success` in every
other case. -/
theorem determineOverallStatus_spec
    (ie ce te pe : List ErrHandling.SystemError)
    (results : List Publishing.ProcessingResult) :
    (Controller.determineOverallStatus ie ce te pe results = .success ↔
      (ie.length + ce.length + te.length + pe.length = 0 ∧
       ∀ r ∈ results, r.success = true)) ∧
    (Controller.determineOverallStatus ie ce te pe results = .failure ↔
      ((∀ r ∈ results, r.success = false) ∧
       3 ≤ ie.length + ce.length + te.length + pe.length)) ∧
    (Controller.determineOverallStatus ie ce te pe results = .partialSuccess ↔
      (¬(ie.length + ce.length + te.length + pe.length = 0 ∧
         ∀ r ∈ results, r.success = true) ∧
       ¬((∀ r ∈ results, r.success = false) ∧
         3 ≤ ie.length + ce.length + te.length + pe.length))) := by
  have hall := length_filter_eq_iff_all (fun r => r.success) results
  have hnone := length_filter_eq_zero_iff_none (fun r => r.success) results
  have hle := List.length_filter_le (fun r => r.success) results
  simp only [Controller.determineOverallStatus]
  split_ifs with hA hB
  · simp only [Bool.and_eq_true, beq_iff_eq] at hA
    obtain ⟨hA1, hA2⟩ := hA
    refine ⟨iff_of_true rfl ⟨hA1, hall.mp hA2⟩,
            iff_of_false (by simp) ?_, iff_of_false (by simp) ?_⟩
    · rintro ⟨-, h3⟩
      omega
    · rintro ⟨hn1, -⟩
      exact hn1 ⟨hA1, hall.mp hA2⟩
  · simp only [Bool.and_eq_true, beq_iff_eq, not_and] at hA
    simp only [Bool.or_eq_true, decide_eq_true_eq] at hB
    refine ⟨iff_of_false (by simp) ?_, iff_of_false (by simp) ?_,
            iff_of_true rfl ⟨?_, ?_⟩⟩
    · rintro ⟨h0, ha⟩
      exact hA h0 (hall.mpr ha)
    · rintro ⟨hn, h3⟩
      have hz := hnone.mpr hn
      rcases hB with h | h <;> omega
    · rintro ⟨h0, ha⟩
      exact hA h0 (hall.mpr ha)
    · rintro ⟨hn, h3⟩
      have hz := hnone.mpr hn
      rcases hB with h | h <;> omega
  · simp only [Bool.or_eq_true, decide_eq_true_eq, not_or, not_lt] at hB
    obtain ⟨hB1, hB2⟩ := hB
    have hz : (results.filter (fun r => r.success)).length = 0 := by omega
    refine ⟨iff_of_false (by simp) ?_,
            iff_of_true rfl ⟨hnone.mp hz, hB2⟩,
            iff_of_false (by simp) ?_⟩
    · rintro ⟨h0, -⟩
      omega
    · rintro ⟨-, hn2⟩
      exact hn2 ⟨hnone.mp hz, hB2⟩

/-- Auxiliary: `slice(-n)` keeps at least `n` elements when `n` are
available. -/
theorem jsSliceLast_length_ge {α : Type} (l : List α) (n : Nat)
    (h : n ≤ l.length) : n ≤ (ErrHandling.jsSliceLast l n).length := by
  unfold ErrHandling.jsSliceLast
  split
  · omega
  · simp only [List.length_drop]
    omega

/-- Auxiliary: dropping the head loses at most one filtered element. -/
theorem length_filter_tail_ge {α : Type} (p : α → Bool) (l : List α) :
    (l.filter p).length ≤ ((l.drop 1).filter p).length + 1 := by
  cases l with
  | nil => simp
  | cons x xs =>
    by_cases hx : p x = true <;> simp [List.filter_cons, hx]

/-- Auxiliary: the entry just logged is the last one in the bounded log. -/
theorem logError_getLast (errs : List ErrHandling.SystemError)
    (e : ErrHandling.SystemError) :
    (ErrHandling.logError errs e).getLast? = some e := by
  by_cases hb : (errs ++ [e]).length > 1000
  · have heq : ErrHandling.logError errs e =
        (errs ++ [e]).drop ((errs ++ [e]).length - 1000) := by
      simp only [ErrHandling.logError, ErrHandling.jsSliceLast]
      rw [if_pos hb, if_neg (by omega)]
    have hk : (errs ++ [e]).length - 1000 ≤ errs.length := by
      simp only [List.length_append, List.length_singleton]
      omega
    rw [heq, List.drop_append_of_le_length hk]
    exact List.getLast?_concat _
  · have heq : ErrHandling.logError errs e = errs ++ [e] := by
      simp only [ErrHandling.logError]
      rw [if_neg hb]
    rw [heq]
    exact List.getLast?_concat _

/-- C3: once a component's recorded error count has reached its configured
threshold (classifier 10, connection 5, transform 8, publish 7, coordinator 3),
the next `handleError` call for that component returns exactly the
high-priority pause-system action plus the admin notification carrying the
last five errors of that component, and performs no recovery: the state only
gains the logged error, which stays unresolved. -/
theorem threshold_pause_notify (s : ErrHandling.ErrState)
    (e : ErrHandling.SystemError) (ctx : Option ErrHandling.Ctx) (now : Nat)
    (rand : String) (t : Nat)
    (hths : s.thresholds = ErrHandling.initialThresholds)
    (ht : (e.component, t) ∈ ErrHandling.initialThresholds)
    (hlen : s.errors.length ≤ 1000)
    (hcount : t ≤ ErrHandling.getErrorCount s.errors e.component)
    (hres : e.resolved = false) :
    (ErrHandling.handleError s e ctx now rand).1 =
      [{ type := .error, target := "system",
         parameters := .pauseSystem
           ("Error threshold exceeded for " ++ e.component ++ ". System paused."),
         priority := .high, dependencies := [],
         id := "threshold_exceeded_" ++ toString now },
       { type := .notify, target := "admin",
         parameters := .thresholdNotify
           ("Critical: Error threshold exceeded for " ++ e.component)
           (ErrHandling.getErrorCount (ErrHandling.logError s.errors e) e.component)
           (some t)
           (ErrHandling.getRecentErrors (ErrHandling.logError s.errors e) e.component 5),
         priority := .high, dependencies := [],
         id := "notify_threshold_" ++ toString now }] ∧
    (ErrHandling.handleError s e ctx now rand).2.errors =
      ErrHandling.logError s.errors e ∧
    (ErrHandling.handleError s e ctx now rand).2.errors.getLast?.map
      (fun x => x.resolved) = some false := by
  have hcomp : ErrHandling.lookupThreshold ErrHandling.initialThresholds e.component
      = some t := by
    simp only [ErrHandling.initialThresholds, List.mem_cons, List.mem_singleton,
      Prod.mk.injEq, List.not_mem_nil, or_false] at ht
    rcases ht with ⟨h1, h2⟩ | ⟨h1, h2⟩ | ⟨h1, h2⟩ | ⟨h1, h2⟩ | ⟨h1, h2⟩ <;>
      rw [h1, h2] <;> decide
  have hpe : ((s.errors ++ [e]).filter
      (fun x => x.component == e.component)).length =
      ErrHandling.getErrorCount s.errors e.component + 1 := by
    simp [ErrHandling.getErrorCount, List.filter_append]
  have hfil : t ≤ ((ErrHandling.logError s.errors e).filter
      (fun x => x.component == e.component)).length := by
    by_cases hb : (s.errors ++ [e]).length > 1000
    · have heq : ErrHandling.logError s.errors e =
          (s.errors ++ [e]).drop ((s.errors ++ [e]).length - 1000) := by
        simp only [ErrHandling.logError, ErrHandling.jsSliceLast]
        rw [if_pos hb, if_neg (by omega)]
      have hk : (s.errors ++ [e]).length - 1000 = 1 := by
        simp only [List.length_append, List.length_singleton] at hb ⊢
        omega
      have h2 := length_filter_tail_ge (fun x => x.component == e.component)
        (s.errors ++ [e])
      rw [heq, hk]
      omega
    · have heq : ErrHandling.logError s.errors e = s.errors ++ [e] := by
        simp only [ErrHandling.logError]
        rw [if_neg hb]
      rw [heq]
      omega
  have hexc : ErrHandling.isErrorThresholdExceeded
      { s with errors := ErrHandling.logError s.errors e } e.component = true := by
    unfold ErrHandling.isErrorThresholdExceeded ErrHandling.getRecentErrors
    rw [show ({ s with errors := ErrHandling.logError s.errors e } :
        ErrHandling.ErrState).thresholds = s.thresholds from rfl, hths, hcomp]
    simp only [Option.getD_some]
    exact decide_eq_true (jsSliceLast_length_ge _ _ hfil)
  refine ⟨?_, ?_, ?_⟩
  · show (ErrHandling.handleError s e ctx now rand).1 = _
    unfold ErrHandling.handleError
    rw [if_pos hexc]
    unfold ErrHandling.handleThresholdExceeded
    rw [show ({ s with errors := ErrHandling.logError s.errors e } :
        ErrHandling.ErrState).thresholds = s.thresholds from rfl, hths, hcomp]
  · unfold ErrHandling.handleError
    rw [if_pos hexc]
  · unfold ErrHandling.handleError
    rw [if_pos hexc]
    show (ErrHandling.logError s.errors e).getLast?.map (fun x => x.resolved) = _
    rw [logError_getLast]
    simp [hres]

/-- C3 witness: with three coordinator errors already recorded (threshold 3),
the fourth coordinator error is logged unresolved. -/
theorem threshold_pause_notify_witness :
    (ErrHandling.handleError thresholdState (coordError 4) none 0 "r").2.errors.getLast?.map
      (fun x => x.resolved) = some false :=
  (threshold_pause_notify thresholdState (coordError 4) none 0 "r" 3 rfl
    (by decide) (by decide) (by decide) rfl).2.2

/-- C8: `handleError` always returns a non-empty action list: two actions
(pause + notify) once the threshold is exceeded, the registered strategy's
actions when it yields any, and otherwise exactly one generic
error-notification whose priority is high for critical/high severity, medium
for medium, and low for low. -/
theorem handleError_nonempty_cases (s : ErrHandling.ErrState)
    (e : ErrHandling.SystemError) (ctx : Option ErrHandling.Ctx) (now : Nat)
    (rand : String) :
    (ErrHandling.handleError s e ctx now rand).1 ≠ [] ∧
    (ErrHandling.isErrorThresholdExceeded
        { s with errors := ErrHandling.logError s.errors e } e.component = true →
      (ErrHandling.handleError s e ctx now rand).1 =
        [{ type := .error, target := "system",
           parameters := .pauseSystem
             ("Error threshold exceeded for " ++ e.component ++ ". System paused."),
           priority := .high, dependencies := [],
           id := "threshold_exceeded_" ++ toString now },
         { type := .notify, target := "admin",
           parameters := .thresholdNotify
             ("Critical: Error threshold exceeded for " ++ e.component)
             (ErrHandling.getErrorCount (ErrHandling.logError s.errors e) e.component)
             (ErrHandling.lookupThreshold s.thresholds e.component)
             (ErrHandling.getRecentErrors (ErrHandling.logError s.errors e) e.component 5),
           priority := .high, dependencies := [],
           id := "notify_threshold_" ++ toString now }]) ∧
    (ErrHandling.isErrorThresholdExceeded
        { s with errors := ErrHandling.logError s.errors e } e.component = false →
      ∀ f, ErrHandling.recoveryStrategy e.component = some f →
        f e ctx now ≠ [] →
        (ErrHandling.handleError s e ctx now rand).1 = f e ctx now) ∧
    (ErrHandling.isErrorThresholdExceeded
        { s with errors := ErrHandling.logError s.errors e } e.component = false →
      (∀ f, ErrHandling.recoveryStrategy e.component = some f → f e ctx now = []) →
      (ErrHandling.handleError s e ctx now rand).1 =
        [{ type := .error, target := "system",
           parameters := .errorNotif e.error e.component e.severity ctx,
           priority := match e.severity with
             | .critical => .high
             | .high => .high
             | .medium => .medium
             | .low => .low,
           dependencies := [],
           id := "error_" ++ toString now ++ "_" ++ rand }]) := by
  by_cases hth : ErrHandling.isErrorThresholdExceeded
      { s with errors := ErrHandling.logError s.errors e } e.component = true
  · refine ⟨?_, ?_, ?_, ?_⟩
    · unfold ErrHandling.handleError
      rw [if_pos hth]
      simp [ErrHandling.handleThresholdExceeded]
    · intro _
      unfold ErrHandling.handleError
      rw [if_pos hth]
      rfl
    · intro hfalse
      rw [hth] at hfalse
      cases hfalse
    · intro hfalse
      rw [hth] at hfalse
      cases hfalse
  · cases hstrat : ErrHandling.recoveryStrategy e.component with
    | none =>
      have hrec : ErrHandling.attemptRecovery
          { s with errors := ErrHandling.logError s.errors e } e ctx now =
          ([], { s with errors := ErrHandling.logError s.errors e }) := by
        unfold ErrHandling.attemptRecovery
        rw [hstrat]
      have hmain : (ErrHandling.handleError s e ctx now rand).1 =
          [{ type := .error, target := "system",
             parameters := .errorNotif e.error e.component e.severity ctx,
             priority := ErrHandling.getErrorPriority e.severity,
             dependencies := [],
             id := "error_" ++ toString now ++ "_" ++ rand }] := by
        unfold ErrHandling.handleError
        rw [if_neg hth, hrec]
        simp
      refine ⟨by simp [hmain], ?_, ?_, ?_⟩
      · intro htrue
        exact absurd htrue hth
      · intro _ f hf
        exact Option.noConfusion hf
      · intro _ _
        rw [hmain]
        cases e.severity <;> rfl
    | some f =>
      by_cases hacts : f e ctx now = []
      · have hrec : ErrHandling.attemptRecovery
            { s with errors := ErrHandling.logError s.errors e } e ctx now =
            ([], { s with errors := ErrHandling.logError s.errors e }) := by
          unfold ErrHandling.attemptRecovery
          rw [hstrat]
          simp [hacts]
        have hmain : (ErrHandling.handleError s e ctx now rand).1 =
            [{ type := .error, target := "system",
               parameters := .errorNotif e.error e.component e.severity ctx,
               priority := ErrHandling.getErrorPriority e.severity,
               dependencies := [],
               id := "error_" ++ toString now ++ "_" ++ rand }] := by
          unfold ErrHandling.handleError
          rw [if_neg hth, hrec]
          simp
        refine ⟨by simp [hmain], ?_, ?_, ?_⟩
        · intro htrue
          exact absurd htrue hth
        · intro _ g hg habs
          injection hg with hfg
          subst hfg
          exact absurd hacts habs
        · intro _ _
          rw [hmain]
          cases e.severity <;> rfl
      · have hlenpos : 0 < (f e ctx now).length := List.length_pos.mpr hacts
        have hrec : ErrHandling.attemptRecovery
            { s with errors := ErrHandling.logError s.errors e } e ctx now =
            (f e ctx now,
             { s with errors :=
                 ErrHandling.markResolved (ErrHandling.logError s.errors e) e }) := by
          unfold ErrHandling.attemptRecovery
          rw [hstrat]
          dsimp only
          rw [if_pos hlenpos]
        have hmain : (ErrHandling.handleError s e ctx now rand).1 = f e ctx now := by
          unfold ErrHandling.handleError
          rw [if_neg hth, hrec]
          dsimp only
          rw [if_pos hlenpos]
        refine ⟨by rw [hmain]; exact hacts, ?_, ?_, ?_⟩
        · intro htrue
          exact absurd htrue hth
        · intro _ g hg _
          injection hg with hfg
          subst hfg
          exact hmain
        · intro _ hall
          exact absurd (hall f rfl) hacts

/-- C8 witness: an error of a component with no registered strategy and low
severity yields exactly one low-priority generic notification. -/
theorem handleError_nonempty_cases_witness :
    (ErrHandling.handleError genericErrState controllerError none 0 "r").1 =
      [{ type := .error, target := "system",
         parameters := .errorNotif controllerError.error controllerError.component
           controllerError.severity none,
         priority := .low, dependencies := [],
         id := "error_" ++ toString 0 ++ "_" ++ "r" }] :=
  (handleError_nonempty_cases genericErrState controllerError none 0 "r").2.2.2
    (by decide) (fun f hf => Option.noConfusion hf)

/-- C1: with a non-empty set of eligible target connections, the returned
result's success flag is true exactly when the run-local error count is zero
or strictly below the number of eligible targets. -/
theorem executePublishing_success_rule
    (pc : Publishing.ProcessedContent) (conns : List Publishing.FrontendConnection)
    (schemas : List (String × Publishing.FrontendSchema))
    (fetchO : Nat → Publishing.FetchOutcome) (st : Publishing.PubState)
    (ts : String) (now elapsed : Nat)
    (hne : Publishing.targetConnectionsOf pc conns ≠ []) :
    (Publishing.executePublishing pc conns schemas fetchO st ts now elapsed).1.success
        = true ↔
      ((Publishing.executePublishing pc conns schemas fetchO st ts now elapsed).1.errors.length
          = 0 ∨
       (Publishing.executePublishing pc conns schemas fetchO st ts now elapsed).1.errors.length
          < (Publishing.targetConnectionsOf pc conns).length) := by
  simp only [Publishing.executePublishing]
  rw [if_neg (fun h => hne (List.length_eq_zero.mp h))]
  rcases hfold : (Publishing.targetConnectionsOf pc conns).foldl
      (Publishing.processConnection pc schemas fetchO ts now)
      ([], [], [], st.fetchCount) with ⟨reqs, errs, instNew, cnt⟩
  dsimp only
  simp [Bool.or_eq_true, beq_iff_eq, decide_eq_true_eq]

/-- C1 witness: three active destinations, one of which (missing schema)
fails non-recoverably at request generation: one error, success stays true. -/
theorem executePublishing_success_rule_witness :
    Publishing.targetConnectionsOf scenarioContent threeConns ≠ [] ∧
    (Publishing.executePublishing scenarioContent threeConns twoSchemas
      (fun _ => .ok) emptyPubState "ts" 0 0).1.errors.length = 1 ∧
    (Publishing.executePublishing scenarioContent threeConns twoSchemas
      (fun _ => .ok) emptyPubState "ts" 0 0).1.success = true := by
  refine ⟨by decide, by decide, ?_⟩
  exact (executePublishing_success_rule scenarioContent threeConns twoSchemas
    (fun _ => .ok) emptyPubState "ts" 0 0 (by decide)).mpr (Or.inr (by decide))

/-- C6 (counterexample): with zero eligible connections the stage does report
exactly one error, but it DOES contribute a ProcessingResult — the failure
result is appended to the execution history. -/
theorem zero_eligible_contributes_result :
    Publishing.targetConnectionsOf scenarioContent [inactiveConn] = [] ∧
    ¬ ((Publishing.executePublishing scenarioContent [inactiveConn] []
          (fun _ => .ok) emptyPubState "ts" 0 0).1.errors.length = 1 ∧
       (Publishing.executePublishing scenarioContent [inactiveConn] []
          (fun _ => .ok) emptyPubState "ts" 0 0).2.executionHistory.length =
         emptyPubState.executionHistory.length) := by
  decide

/-- C6 (amended): with zero eligible connections the stage reports exactly one
(critical) error and returns a failure ProcessingResult — no API requests,
success false — which is appended to the execution history. -/
theorem zero_eligible_single_error
    (pc : Publishing.ProcessedContent) (conns : List Publishing.FrontendConnection)
    (schemas : List (String × Publishing.FrontendSchema))
    (fetchO : Nat → Publishing.FetchOutcome) (st : Publishing.PubState)
    (ts : String) (now elapsed : Nat)
    (h : Publishing.targetConnectionsOf pc conns = []) :
    (Publishing.executePublishing pc conns schemas fetchO st ts now elapsed).1.errors.length
      = 1 ∧
    (∀ x ∈ (Publishing.executePublishing pc conns schemas fetchO st ts now elapsed).1.errors,
      x.severity = .critical) ∧
    (Publishing.executePublishing pc conns schemas fetchO st ts now elapsed).1.success
      = false ∧
    (Publishing.executePublishing pc conns schemas fetchO st ts now elapsed).1.api_requests
      = [] ∧
    (Publishing.executePublishing pc conns schemas fetchO st ts now elapsed).2.executionHistory
      = st.executionHistory ++
        [(Publishing.executePublishing pc conns schemas fetchO st ts now elapsed).1] := by
  simp only [Publishing.executePublishing, h]
  simp

/-- C6 witness (amended claim): one inactive destination. -/
theorem zero_eligible_single_error_witness :
    Publishing.targetConnectionsOf scenarioContent [inactiveConn] = [] ∧
    (Publishing.executePublishing scenarioContent [inactiveConn] []
        (fun _ => .ok) emptyPubState "ts" 0 0).1.errors.length = 1 ∧
    (Publishing.executePublishing scenarioContent [inactiveConn] []
        (fun _ => .ok) emptyPubState "ts" 0 0).1.success = false :=
  ⟨rfl,
   (zero_eligible_single_error scenarioContent [inactiveConn] []
     (fun _ => .ok) emptyPubState "ts" 0 0 rfl).1,
   (zero_eligible_single_error scenarioContent [inactiveConn] []
     (fun _ => .ok) emptyPubState "ts" 0 0 rfl).2.2.1⟩

/-- C7: whenever a required field is missing (JS-falsy), the auth kind is
outside {oauth2, api_key, jwt}, or the base URL is syntactically invalid,
`manageConnection` records exactly one high-severity validation error and
returns `false` without issuing any outbound request and without touching the
connection or schema stores (and, the helpers catching every host failure, it
never throws). -/
theorem manageConnection_validation (conn : Publishing.FrontendConnection)
    (st : ConnMgr.ConnState) (O : ConnMgr.HostOracle) (ts : String)
    (hbad : conn.name = "" ∨ conn.api_endpoint = "" ∨ conn.auth_type = "" ∨
            conn.credentials = "" ∨
            ¬ ((["oauth2", "api_key", "jwt"] : List String).contains conn.auth_type = true) ∨
            O.urlValid conn.api_endpoint = false) :
    (ConnMgr.manageConnection conn st O ts).1 = false ∧
    (∃ msg, (ConnMgr.manageConnection conn st O ts).2.errors =
        st.errors ++ [ConnMgr.validationError ts msg]) ∧
    (ConnMgr.manageConnection conn st O ts).2.fetchCount = st.fetchCount ∧
    (ConnMgr.manageConnection conn st O ts).2.connections = st.connections ∧
    (ConnMgr.manageConnection conn st O ts).2.schemas = st.schemas := by
  have hv : (ConnMgr.validateConnection conn st O ts).1 = false ∧
      ∃ msg, (ConnMgr.validateConnection conn st O ts).2 =
        { st with errors := st.errors ++ [ConnMgr.validationError ts msg] } := by
    unfold ConnMgr.validateConnection
    split_ifs with h1 h2 h3 h4 h5 h6
    · exact ⟨rfl, ⟨_, rfl⟩⟩
    · exact ⟨rfl, ⟨_, rfl⟩⟩
    · exact ⟨rfl, ⟨_, rfl⟩⟩
    · exact ⟨rfl, ⟨_, rfl⟩⟩
    · exact ⟨rfl, ⟨_, rfl⟩⟩
    · exact ⟨rfl, ⟨_, rfl⟩⟩
    · exfalso
      rcases hbad with h | h | h | h | h | h <;> simp_all
  obtain ⟨hv1, msg, hv2⟩ := hv
  unfold ConnMgr.manageConnection
  rcases hval : ConnMgr.validateConnection conn st O ts with ⟨vOk, st1⟩
  rw [hval] at hv1 hv2
  simp only at hv1 hv2
  subst hv1
  subst hv2
  dsimp only
  exact ⟨rfl, ⟨msg, rfl⟩, rfl, rfl, rfl⟩

/-- C7 witness: an `auth_type` of `basic` is rejected with no probe issued. -/
theorem manageConnection_validation_witness :
    (ConnMgr.manageConnection badAuthConn emptyConnState permissiveOracle "ts").1
      = false ∧
    (ConnMgr.manageConnection badAuthConn emptyConnState permissiveOracle "ts").2.fetchCount
      = emptyConnState.fetchCount :=
  ⟨(manageConnection_validation badAuthConn emptyConnState permissiveOracle "ts"
      (by decide)).1,
   (manageConnection_validation badAuthConn emptyConnState permissiveOracle "ts"
      (by decide)).2.2.1⟩

/-- Auxiliary: one step of the backoff loop, keyed on the outcome of the
resend. -/
theorem backoffGo_step (fetchO : Nat → Publishing.FetchOutcome) (d : Nat)
    (rest : List Nat) (i cnt : Nat) :
    Publishing.backoffGo fetchO (d :: rest) i cnt =
      if outcomeOk (fetchO cnt) = true then
        (true, [.sleep d, .backoffAttempt i], cnt + 1)
      else
        ((Publishing.backoffGo fetchO rest (i + 1) (cnt + 1)).1,
         [Publishing.RecEvent.sleep d, Publishing.RecEvent.backoffAttempt i] ++
           (Publishing.backoffGo fetchO rest (i + 1) (cnt + 1)).2.1,
         (Publishing.backoffGo fetchO rest (i + 1) (cnt + 1)).2.2) := by
  cases h : fetchO cnt <;> simp [Publishing.backoffGo, outcomeOk, h]

/-- Auxiliary: one step of the alternative-auth loop. -/
theorem altAuthGo_step (fetchO : Nat → Publishing.FetchOutcome) (h : String)
    (rest : List String) (cnt : Nat) :
    Publishing.altAuthGo fetchO (h :: rest) cnt =
      if outcomeOk (fetchO cnt) = true then
        (true, [.altAuthAttempt h], cnt + 1)
      else
        ((Publishing.altAuthGo fetchO rest (cnt + 1)).1,
         [Publishing.RecEvent.altAuthAttempt h] ++
           (Publishing.altAuthGo fetchO rest (cnt + 1)).2.1,
         (Publishing.altAuthGo fetchO rest (cnt + 1)).2.2) := by
  cases hc : fetchO cnt <;> simp [Publishing.altAuthGo, outcomeOk, hc]

/-- Auxiliary: backoff result when the first resend succeeds. -/
theorem retryWithBackoff_ok0 (fetchO : Nat → Publishing.FetchOutcome) (cnt : Nat)
    (h0 : outcomeOk (fetchO cnt) = true) :
    Publishing.retryWithBackoff fetchO cnt =
      (true, [.sleep 1000, .backoffAttempt 0], cnt + 1) := by
  unfold Publishing.retryWithBackoff Publishing.backoffDelays
  rw [backoffGo_step, if_pos h0]

/-- Auxiliary: backoff result when the second resend is the first success. -/
theorem retryWithBackoff_ok1 (fetchO : Nat → Publishing.FetchOutcome) (cnt : Nat)
    (h0 : outcomeOk (fetchO cnt) = false)
    (h1 : outcomeOk (fetchO (cnt + 1)) = true) :
    Publishing.retryWithBackoff fetchO cnt =
      (true, [.sleep 1000, .backoffAttempt 0, .sleep 3000, .backoffAttempt 1],
       cnt + 2) := by
  unfold Publishing.retryWithBackoff Publishing.backoffDelays
  rw [backoffGo_step, if_neg (by simp [h0]), backoffGo_step, if_pos h1]
  rfl

/-- Auxiliary: backoff result when only the third resend succeeds. -/
theorem retryWithBackoff_ok2 (fetchO : Nat → Publishing.FetchOutcome) (cnt : Nat)
    (h0 : outcomeOk (fetchO cnt) = false)
    (h1 : outcomeOk (fetchO (cnt + 1)) = false)
    (h2 : outcomeOk (fetchO (cnt + 2)) = true) :
    Publishing.retryWithBackoff fetchO cnt =
      (true, [.sleep 1000, .backoffAttempt 0, .sleep 3000, .backoffAttempt 1,
              .sleep 5000, .backoffAttempt 2], cnt + 3) := by
  unfold Publishing.retryWithBackoff Publishing.backoffDelays
  rw [backoffGo_step, if_neg (by simp [h0]), backoffGo_step,
    if_neg (by simp [h1])]
  rw [show cnt + 1 + 1 = cnt + 2 from rfl, backoffGo_step, if_pos h2]
  rfl

/-- Auxiliary: backoff result when all three resends fail. -/
theorem retryWithBackoff_fail (fetchO : Nat → Publishing.FetchOutcome) (cnt : Nat)
    (h0 : outcomeOk (fetchO cnt) = false)
    (h1 : outcomeOk (fetchO (cnt + 1)) = false)
    (h2 : outcomeOk (fetchO (cnt + 2)) = false) :
    Publishing.retryWithBackoff fetchO cnt =
      (false, [.sleep 1000, .backoffAttempt 0, .sleep 3000, .backoffAttempt 1,
               .sleep 5000, .backoffAttempt 2], cnt + 3) := by
  unfold Publishing.retryWithBackoff Publishing.backoffDelays
  rw [backoffGo_step, if_neg (by simp [h0]), backoffGo_step,
    if_neg (by simp [h1])]
  rw [show cnt + 1 + 1 = cnt + 2 from rfl, backoffGo_step, if_neg (by simp [h2])]
  rfl

/-- Auxiliary: alternative-auth result when the first header succeeds. -/
theorem retryWithAlternativeAuth_ok0 (fetchO : Nat → Publishing.FetchOutcome)
    (cnt : Nat) (h0 : outcomeOk (fetchO cnt) = true) :
    Publishing.retryWithAlternativeAuth fetchO cnt =
      (true, [.altAuthAttempt "X-API-Key"], cnt + 1) := by
  unfold Publishing.retryWithAlternativeAuth Publishing.alternativeAuthHeaders
  rw [altAuthGo_step, if_pos h0]

/-- Auxiliary: alternative-auth result when the second header is the first
success. -/
theorem retryWithAlternativeAuth_ok1 (fetchO : Nat → Publishing.FetchOutcome)
    (cnt : Nat) (h0 : outcomeOk (fetchO cnt) = false)
    (h1 : outcomeOk (fetchO (cnt + 1)) = true) :
    Publishing.retryWithAlternativeAuth fetchO cnt =
      (true, [.altAuthAttempt "X-API-Key", .altAuthAttempt "Authorization"],
       cnt + 2) := by
  unfold Publishing.retryWithAlternativeAuth Publishing.alternativeAuthHeaders
  rw [altAuthGo_step, if_neg (by simp [h0]), altAuthGo_step, if_pos h1]
  rfl

/-- Auxiliary: alternative-auth result when only the third header succeeds. -/
theorem retryWithAlternativeAuth_ok2 (fetchO : Nat → Publishing.FetchOutcome)
    (cnt : Nat) (h0 : outcomeOk (fetchO cnt) = false)
    (h1 : outcomeOk (fetchO (cnt + 1)) = false)
    (h2 : outcomeOk (fetchO (cnt + 2)) = true) :
    Publishing.retryWithAlternativeAuth fetchO cnt =
      (true, [.altAuthAttempt "X-API-Key", .altAuthAttempt "Authorization",
              .altAuthAttempt "Authorization"], cnt + 3) := by
  unfold Publishing.retryWithAlternativeAuth Publishing.alternativeAuthHeaders
  rw [altAuthGo_step, if_neg (by simp [h0]), altAuthGo_step,
    if_neg (by simp [h1])]
  rw [show cnt + 1 + 1 = cnt + 2 from rfl, altAuthGo_step, if_pos h2]
  rfl

/-- Auxiliary: alternative-auth result when every header fails. -/
theorem retryWithAlternativeAuth_fail (fetchO : Nat → Publishing.FetchOutcome)
    (cnt : Nat) (h0 : outcomeOk (fetchO cnt) = false)
    (h1 : outcomeOk (fetchO (cnt + 1)) = false)
    (h2 : outcomeOk (fetchO (cnt + 2)) = false) :
    Publishing.retryWithAlternativeAuth fetchO cnt =
      (false, [.altAuthAttempt "X-API-Key", .altAuthAttempt "Authorization",
               .altAuthAttempt "Authorization"], cnt + 3) := by
  unfold Publishing.retryWithAlternativeAuth Publishing.alternativeAuthHeaders
  rw [altAuthGo_step, if_neg (by simp [h0]), altAuthGo_step,
    if_neg (by simp [h1])]
  rw [show cnt + 1 + 1 = cnt + 2 from rfl, altAuthGo_step, if_neg (by simp [h2])]
  rfl

/-- C5: the recovery chain issues at most 3 backoff resends, each preceded by
its exact delay (1000, 3000, 5000 ms, in order); alternative-auth resends
occur only after all three backoff resends failed, simplified-content resends
only after the alternative-auth resends also failed, and the three strategies
appear in the trace in that fixed order. -/
theorem recovery_chain_order (conn : Publishing.FrontendConnection)
    (origMsg ts : String) (fetchO : Nat → Publishing.FetchOutcome) (cnt : Nat) :
    ((Publishing.attemptRecovery conn origMsg fetchO cnt ts).1.filter
        isBackoffEvent).length ≤ 3 ∧
    ((Publishing.attemptRecovery conn origMsg fetchO cnt ts).1.filter
        (fun ev => eventStage ev == 0)) ∈
      [[Publishing.RecEvent.sleep 1000, Publishing.RecEvent.backoffAttempt 0],
       [Publishing.RecEvent.sleep 1000, Publishing.RecEvent.backoffAttempt 0,
        Publishing.RecEvent.sleep 3000, Publishing.RecEvent.backoffAttempt 1],
       [Publishing.RecEvent.sleep 1000, Publishing.RecEvent.backoffAttempt 0,
        Publishing.RecEvent.sleep 3000, Publishing.RecEvent.backoffAttempt 1,
        Publishing.RecEvent.sleep 5000, Publishing.RecEvent.backoffAttempt 2]] ∧
    ((∃ ev ∈ (Publishing.attemptRecovery conn origMsg fetchO cnt ts).1,
        isAltAuthEvent ev = true) →
      outcomeOk (fetchO cnt) = false ∧
      outcomeOk (fetchO (cnt + 1)) = false ∧
      outcomeOk (fetchO (cnt + 2)) = false ∧
      Publishing.RecEvent.backoffAttempt 2 ∈
        (Publishing.attemptRecovery conn origMsg fetchO cnt ts).1) ∧
    (Publishing.RecEvent.simplifiedAttempt ∈
        (Publishing.attemptRecovery conn origMsg fetchO cnt ts).1 →
      outcomeOk (fetchO (cnt + 3)) = false ∧
      outcomeOk (fetchO (cnt + 4)) = false ∧
      outcomeOk (fetchO (cnt + 5)) = false ∧
      Publishing.RecEvent.altAuthAttempt "Authorization" ∈
        (Publishing.attemptRecovery conn origMsg fetchO cnt ts).1) ∧
    ((Publishing.attemptRecovery conn origMsg fetchO cnt ts).1.map
        eventStage).Pairwise (· ≤ ·) := by
  by_cases h0 : outcomeOk (fetchO cnt) = true
  · have htr : (Publishing.attemptRecovery conn origMsg fetchO cnt ts).1 =
        [.sleep 1000, .backoffAttempt 0] := by
      simp [Publishing.attemptRecovery, retryWithBackoff_ok0 fetchO cnt h0]
    rw [htr]
    refine ⟨by decide, by decide, ?_, ?_, by decide⟩
    · intro hc
      exact absurd hc (by decide)
    · intro hc
      exact absurd hc (by decide)
  replace h0 : outcomeOk (fetchO cnt) = false := Bool.not_eq_true _ |>.mp h0
  by_cases h1 : outcomeOk (fetchO (cnt + 1)) = true
  · have htr : (Publishing.attemptRecovery conn origMsg fetchO cnt ts).1 =
        [.sleep 1000, .backoffAttempt 0, .sleep 3000, .backoffAttempt 1] := by
      simp [Publishing.attemptRecovery, retryWithBackoff_ok1 fetchO cnt h0 h1]
    rw [htr]
    refine ⟨by decide, by decide, ?_, ?_, by decide⟩
    · intro hc
      exact absurd hc (by decide)
    · intro hc
      exact absurd hc (by decide)
  replace h1 : outcomeOk (fetchO (cnt + 1)) = false := Bool.not_eq_true _ |>.mp h1
  by_cases h2 : outcomeOk (fetchO (cnt + 2)) = true
  · have htr : (Publishing.attemptRecovery conn origMsg fetchO cnt ts).1 =
        [.sleep 1000, .backoffAttempt 0, .sleep 3000, .backoffAttempt 1,
         .sleep 5000, .backoffAttempt 2] := by
      simp [Publishing.attemptRecovery, retryWithBackoff_ok2 fetchO cnt h0 h1 h2]
    rw [htr]
    refine ⟨by decide, by decide, ?_, ?_, by decide⟩
    · intro hc
      exact absurd hc (by decide)
    · intro hc
      exact absurd hc (by decide)
  replace h2 : outcomeOk (fetchO (cnt + 2)) = false := Bool.not_eq_true _ |>.mp h2
  by_cases ha0 : outcomeOk (fetchO (cnt + 3)) = true
  · have htr : (Publishing.attemptRecovery conn origMsg fetchO cnt ts).1 =
        [.sleep 1000, .backoffAttempt 0, .sleep 3000, .backoffAttempt 1,
         .sleep 5000, .backoffAttempt 2, .altAuthAttempt "X-API-Key"] := by
      simp [Publishing.attemptRecovery, retryWithBackoff_fail fetchO cnt h0 h1 h2,
        retryWithAlternativeAuth_ok0 fetchO (cnt + 3) ha0]
    rw [htr]
    refine ⟨by decide, by decide, ?_, ?_, by decide⟩
    · intro _
      exact ⟨h0, h1, h2, by decide⟩
    · intro hc
      exact absurd hc (by decide)
  replace ha0 : outcomeOk (fetchO (cnt + 3)) = false := Bool.not_eq_true _ |>.mp ha0
  by_cases ha1 : outcomeOk (fetchO (cnt + 3 + 1)) = true
  · have htr : (Publishing.attemptRecovery conn origMsg fetchO cnt ts).1 =
        [.sleep 1000, .backoffAttempt 0, .sleep 3000, .backoffAttempt 1,
         .sleep 5000, .backoffAttempt 2, .altAuthAttempt "X-API-Key",
         .altAuthAttempt "Authorization"] := by
      simp [Publishing.attemptRecovery, retryWithBackoff_fail fetchO cnt h0 h1 h2,
        retryWithAlternativeAuth_ok1 fetchO (cnt + 3) ha0 ha1]
    rw [htr]
    refine ⟨by decide, by decide, ?_, ?_, by decide⟩
    · intro _
      exact ⟨h0, h1, h2, by decide⟩
    · intro hc
      exact absurd hc (by decide)
  replace ha1 : outcomeOk (fetchO (cnt + 3 + 1)) = false := Bool.not_eq_true _ |>.mp ha1
  by_cases ha2 : outcomeOk (fetchO (cnt + 3 + 2)) = true
  · have htr : (Publishing.attemptRecovery conn origMsg fetchO cnt ts).1 =
        [.sleep 1000, .backoffAttempt 0, .sleep 3000, .backoffAttempt 1,
         .sleep 5000, .backoffAttempt 2, .altAuthAttempt "X-API-Key",
         .altAuthAttempt "Authorization", .altAuthAttempt "Authorization"] := by
      simp [Publishing.attemptRecovery, retryWithBackoff_fail fetchO cnt h0 h1 h2,
        retryWithAlternativeAuth_ok2 fetchO (cnt + 3) ha0 ha1 ha2]
    rw [htr]
    refine ⟨by decide, by decide, ?_, ?_, by decide⟩
    · intro _
      exact ⟨h0, h1, h2, by decide⟩
    · intro hc
      exact absurd hc (by decide)
  replace ha2 : outcomeOk (fetchO (cnt + 3 + 2)) = false := Bool.not_eq_true _ |>.mp ha2
  have htr : (Publishing.attemptRecovery conn origMsg fetchO cnt ts).1 =
      [.sleep 1000, .backoffAttempt 0, .sleep 3000, .backoffAttempt 1,
       .sleep 5000, .backoffAttempt 2, .altAuthAttempt "X-API-Key",
       .altAuthAttempt "Authorization", .altAuthAttempt "Authorization",
       .simplifiedAttempt] := by
    simp only [Publishing.attemptRecovery, retryWithBackoff_fail fetchO cnt h0 h1 h2,
      retryWithAlternativeAuth_fail fetchO (cnt + 3) ha0 ha1 ha2]
    unfold Publishing.retryWithSimplifiedContent
    cases hs : fetchO (cnt + 3 + 3) <;> simp
  rw [htr]
  refine ⟨by decide, by decide, ?_, ?_, by decide⟩
  · intro _
    exact ⟨h0, h1, h2, by decide⟩
  · intro _
    exact ⟨ha0, ha1, ha2, by decide⟩

/-- C5 witness: under a host where every resend throws, the chain reaches
alternative auth only after the three failed backoff resends. -/
theorem recovery_chain_order_witness :
    outcomeOk (allFailFetch 0) = false ∧
    outcomeOk (allFailFetch (0 + 1)) = false ∧
    outcomeOk (allFailFetch (0 + 2)) = false ∧
    Publishing.RecEvent.backoffAttempt 2 ∈
      (Publishing.attemptRecovery (mkActiveConn "site_a") "HTTP 500"
        allFailFetch 0 "ts").1 :=
  (recovery_chain_order (mkActiveConn "site_a") "HTTP 500" "ts" allFailFetch 0).2.2.1
    ⟨.altAuthAttempt "X-API-Key", by decide, rfl⟩

/-- C4 witness: no errors and no publish attempts is overall success. -/
theorem determineOverallStatus_spec_witness :
    Controller.determineOverallStatus [] [] [] [] [] = .success :=
  (determineOverallStatus_spec [] [] [] [] []).1.mpr ⟨rfl, by simp⟩

/-- C10 witness: the no-argument clear empties the log of the threshold
fixture state. -/
theorem clearErrors_spec_witness :
    (ErrHandling.clearErrors thresholdState none).errors = [] :=
  (clearErrors_spec thresholdState "ErrorHandlingService").2.2
